import Mathlib

/-!
# Shallow embedding of the `AiMonitor_FHE` Solidity contract

The contract (src/unnamed/part_000) stores encrypted model-inference
records, per-model homomorphic aggregates, and per-record decrypted
alert states, and drives an asynchronous decrypt-request/callback
protocol.

Modelling decisions, all taken from the source:
* `uint256` values (ids, request ids, timestamps) are `Nat`; `uint32`
  values are `Nat` together with explicit `< 2^32` overflow checks where
  Solidity 0.8 checked arithmetic would revert (`Panic 0x11`).
* `euint32` ciphertext handles are opaque: they support only the
  operations the contract uses, `FHE.asEuint32` of a literal and
  `FHE.add`, so they are modelled as the free term algebra `EU32`; an
  unwritten mapping slot holds the `default` handle.
* Solidity mappings are total functions with the type's zero value at
  unwritten keys, exactly as on the EVM.
* A `require` failure or checked-arithmetic panic reverts the whole
  call; an operation that can revert returns `Except ContractError
  ContractState`, and `applyCall` gives the transactional semantics (on
  revert the pre-state is kept unchanged).
* `FHE.checkSignatures` is the external proof-verification collaborator
  and is an abstract parameter `verify : Nat → Cleartexts → Nat → Bool`
  (request id, decoded cleartext triple, opaque proof); a call reverts
  when it returns `false`.
* `FHE.requestDecryption` is the external gateway; it returns a fresh,
  never previously issued request id, modelled by the counter
  `nextRequestId` shared by both request operations.
* `keccak256(bytes a) == keccak256(bytes b)` is modelled as string
  equality `a = b` (collision-freeness of the hash).
* `abi.decode(cleartexts, (uint32, uint32, uint32))` yields values below
  `2^32`; the `Step` relation records these bounds.
-/

/-- Opaque `euint32` ciphertext handle: the free algebra over the two
operations the contract performs on ciphertexts. `default` is the handle
sitting in an unwritten mapping slot. -/
inductive EU32 where
  | default : EU32
  | lit : Nat → EU32
  | add : EU32 → EU32 → EU32
deriving DecidableEq, Repr

/-- struct EncryptedPrediction -/
structure EncryptedPrediction where
  id : Nat
  encryptedInput : EU32
  encryptedPrediction : EU32
  encryptedGroundTruth : EU32
  timestamp : Nat
  modelId : String
deriving DecidableEq, Repr

/-- struct PerformanceMetrics -/
structure PerformanceMetrics where
  encryptedAccuracy : EU32
  encryptedDriftScore : EU32
  encryptedErrorRate : EU32
deriving DecidableEq, Repr

/-- struct DecryptedAlert -/
structure DecryptedAlert where
  performanceScore : Nat
  alertLevel : String
  needsRetraining : Bool
  isRevealed : Bool
deriving DecidableEq, Repr

/-- The zero value a Solidity mapping yields at an unwritten key. -/
def EncryptedPrediction.zero : EncryptedPrediction :=
  { id := 0, encryptedInput := .default, encryptedPrediction := .default,
    encryptedGroundTruth := .default, timestamp := 0, modelId := "" }

/-- Zero value of `PerformanceMetrics` (unwritten mapping slot). -/
def PerformanceMetrics.zero : PerformanceMetrics :=
  { encryptedAccuracy := .default, encryptedDriftScore := .default,
    encryptedErrorRate := .default }

/-- Zero value of `DecryptedAlert`; it is also exactly what
`recordEncryptedPrediction` writes as the fresh alert state. -/
def DecryptedAlert.zero : DecryptedAlert :=
  { performanceScore := 0, alertLevel := "", needsRetraining := false,
    isRevealed := false }

/-- Full storage of the contract, plus the decryption gateway's fresh
request-id counter (`nextRequestId`), which models
`FHE.requestDecryption` returning a never previously issued id. -/
structure ContractState where
  predictionCount : Nat
  predictions : Nat → EncryptedPrediction
  modelPerformance : String → PerformanceMetrics
  performanceAlerts : Nat → DecryptedAlert
  requestToPredictionId : Nat → Nat
  requestToModelId : Nat → String
  monitoredModels : List String
  nextRequestId : Nat

/-- Revert reasons of the contract: the three `require` strings, the
external verifier rejecting a proof, and a checked-arithmetic panic. -/
inductive ContractError where
  | alreadyAnalyzed
  | invalidRequest
  | alreadyProcessed
  | invalidProof
  | arithmeticPanic
deriving DecidableEq, Repr

/-- Decoded cleartext triple `(input, prediction, groundTruth)` or
`(accuracy, drift, errorRate)`. -/
abbrev Cleartexts := Nat × Nat × Nat

/-- The contract's deployment state: count 0, every mapping at its zero
value, no monitored models; the gateway has issued no request yet. -/
def initialState : ContractState :=
  { predictionCount := 0
    predictions := fun _ => EncryptedPrediction.zero
    modelPerformance := fun _ => PerformanceMetrics.zero
    performanceAlerts := fun _ => DecryptedAlert.zero
    requestToPredictionId := fun _ => 0
    requestToModelId := fun _ => ""
    monitoredModels := []
    nextRequestId := 1 }

/-- function isModelMonitored: linear scan comparing keccak hashes,
modelled as string equality. -/
def isModelMonitored (σ : ContractState) (modelId : String) : Bool :=
  σ.monitoredModels.any (fun m => m = modelId)

/-- function calculatePerformanceScore, with Solidity 0.8 checked
`uint32` arithmetic: `error * 100` panics when it exceeds `2^32 - 1`,
and `100 - q` panics when the quotient `q` exceeds 100; `none` is the
panic (revert). -/
def calculatePerformanceScore (input prediction groundTruth : Nat) : Option Nat :=
  let error := if prediction > groundTruth then prediction - groundTruth
               else groundTruth - prediction
  if error * 100 < 2 ^ 32 then
    let q := error * 100 / (if input > 0 then input else 1)
    if q ≤ 100 then some (100 - q) else none
  else none

/-- function determineAlertLevel -/
def determineAlertLevel (score : Nat) : String :=
  if score < 50 then "Critical"
  else if score < 70 then "Warning"
  else if score < 85 then "Notice"
  else "Normal"

/-- function recordEncryptedPrediction: increments the counter, stores
the record and a zeroed alert at the new id, and registers the model with
`FHE.asEuint32(0)` accumulators when it is not yet monitored. The
`onlyModelOwner` modifier is a no-op in the source, so the function never
reverts. -/
def recordEncryptedPrediction (σ : ContractState) (modelId : String)
    (input prediction groundTruth : EU32) (timestamp : Nat) : ContractState :=
  let newId := σ.predictionCount + 1
  let σ₁ : ContractState :=
    { σ with
      predictionCount := newId
      predictions := fun i =>
        if i = newId then
          { id := newId, encryptedInput := input,
            encryptedPrediction := prediction,
            encryptedGroundTruth := groundTruth,
            timestamp := timestamp, modelId := modelId }
        else σ.predictions i
      performanceAlerts := fun i =>
        if i = newId then DecryptedAlert.zero else σ.performanceAlerts i }
  if isModelMonitored σ modelId then σ₁
  else
    { σ₁ with
      monitoredModels := σ₁.monitoredModels ++ [modelId]
      modelPerformance := fun m =>
        if m = modelId then
          { encryptedAccuracy := .lit 0, encryptedDriftScore := .lit 0,
            encryptedErrorRate := .lit 0 }
        else σ₁.modelPerformance m }

/-- function requestPerformanceAnalysis: requires the alert not yet
revealed, then asks the gateway for a decryption (which returns the
fresh id `σ.nextRequestId`) and records the correlation. The source
checks neither that the record exists nor that a request is already in
flight. -/
def requestPerformanceAnalysis (σ : ContractState) (predictionId : Nat) :
    Except ContractError ContractState :=
  if (σ.performanceAlerts predictionId).isRevealed then
    .error .alreadyAnalyzed
  else
    let reqId := σ.nextRequestId
    .ok { σ with
          requestToPredictionId := fun r =>
            if r = reqId then predictionId else σ.requestToPredictionId r
          nextRequestId := reqId + 1 }

/-- function processPerformanceAnalysis: the analysis callback. Checks
the correlation (zero means never issued), the not-yet-revealed guard,
the proof, then computes and writes the whole alert in one step. The
correlation entry is never deleted. -/
def processPerformanceAnalysis (verify : Nat → Cleartexts → Nat → Bool)
    (σ : ContractState) (requestId : Nat) (cleartexts : Cleartexts)
    (proof : Nat) : Except ContractError ContractState :=
  let predictionId := σ.requestToPredictionId requestId
  if predictionId = 0 then .error .invalidRequest
  else if (σ.performanceAlerts predictionId).isRevealed then
    .error .alreadyProcessed
  else if verify requestId cleartexts proof = false then
    .error .invalidProof
  else
    match calculatePerformanceScore cleartexts.1 cleartexts.2.1 cleartexts.2.2 with
    | none => .error .arithmeticPanic
    | some score =>
      .ok { σ with
            performanceAlerts := fun i =>
              if i = predictionId then
                { performanceScore := score
                  alertLevel := determineAlertLevel score
                  needsRetraining := decide (score < 60)
                  isRevealed := true }
              else σ.performanceAlerts i }

/-- function updateModelMetrics: homomorphically adds the deltas into
the model's accumulators. The source performs no monitored-model check
and the modifier is a no-op, so the function never reverts. -/
def updateModelMetrics (σ : ContractState) (modelId : String)
    (accuracy drift errorRate : EU32) : ContractState :=
  let metrics := σ.modelPerformance modelId
  { σ with
    modelPerformance := fun m =>
      if m = modelId then
        { encryptedAccuracy := .add metrics.encryptedAccuracy accuracy
          encryptedDriftScore := .add metrics.encryptedDriftScore drift
          encryptedErrorRate := .add metrics.encryptedErrorRate errorRate }
      else σ.modelPerformance m }

/-- function requestModelMetricsDecryption: asks the gateway to decrypt
the three accumulators and records `requestId → modelId`. Never
reverts. -/
def requestModelMetricsDecryption (σ : ContractState) (modelId : String) :
    ContractState :=
  let reqId := σ.nextRequestId
  { σ with
    requestToModelId := fun r =>
      if r = reqId then modelId else σ.requestToModelId r
    nextRequestId := reqId + 1 }

/-- function decryptModelMetrics: the metrics callback. Requires a
non-empty stored modelId (the mapping's zero value is the empty string),
verifies the proof, decodes the triple — and writes nothing: the
correlation is never consumed and no field is updated. -/
def decryptModelMetrics (verify : Nat → Cleartexts → Nat → Bool)
    (σ : ContractState) (requestId : Nat) (cleartexts : Cleartexts)
    (proof : Nat) : Except ContractError ContractState :=
  let modelId := σ.requestToModelId requestId
  if modelId.length = 0 then .error .invalidRequest
  else if verify requestId cleartexts proof = false then
    .error .invalidProof
  else .ok σ

/-- function getDecryptedAlert: pure read. -/
def getDecryptedAlert (σ : ContractState) (predictionId : Nat) :
    Nat × String × Bool × Bool :=
  let a := σ.performanceAlerts predictionId
  (a.performanceScore, a.alertLevel, a.needsRetraining, a.isRevealed)

/-- EVM transactional semantics: a reverted call leaves storage exactly
as it was. -/
def applyCall (σ : ContractState) (r : Except ContractError ContractState) :
    ContractState :=
  match r with
  | .ok σ' => σ'
  | .error _ => σ

/-- One successful externally triggered transaction. Reverted calls
leave the state unchanged (`applyCall`), so reachability only needs the
successful ones. `abi.decode` to `uint32` bounds the cleartext values by
`2^32`. -/
inductive Step (verify : Nat → Cleartexts → Nat → Bool) :
    ContractState → ContractState → Prop where
  | record (σ : ContractState) (modelId : String)
      (input prediction groundTruth : EU32) (timestamp : Nat) :
      Step verify σ
        (recordEncryptedPrediction σ modelId input prediction groundTruth timestamp)
  | requestAnalysis (σ σ' : ContractState) (predictionId : Nat)
      (h : requestPerformanceAnalysis σ predictionId = .ok σ') :
      Step verify σ σ'
  | processAnalysis (σ σ' : ContractState) (requestId : Nat)
      (cleartexts : Cleartexts) (proof : Nat)
      (hb1 : cleartexts.1 < 2 ^ 32) (hb2 : cleartexts.2.1 < 2 ^ 32)
      (hb3 : cleartexts.2.2 < 2 ^ 32)
      (h : processPerformanceAnalysis verify σ requestId cleartexts proof = .ok σ') :
      Step verify σ σ'
  | update (σ : ContractState) (modelId : String)
      (accuracy drift errorRate : EU32) :
      Step verify σ (updateModelMetrics σ modelId accuracy drift errorRate)
  | requestMetrics (σ : ContractState) (modelId : String) :
      Step verify σ (requestModelMetricsDecryption σ modelId)
  | decryptMetrics (σ σ' : ContractState) (requestId : Nat)
      (cleartexts : Cleartexts) (proof : Nat)
      (hb1 : cleartexts.1 < 2 ^ 32) (hb2 : cleartexts.2.1 < 2 ^ 32)
      (hb3 : cleartexts.2.2 < 2 ^ 32)
      (h : decryptModelMetrics verify σ requestId cleartexts proof = .ok σ') :
      Step verify σ σ'

/-- States reachable from deployment under a fixed external verifier. -/
inductive Reachable (verify : Nat → Cleartexts → Nat → Bool) :
    ContractState → Prop where
  | init : Reachable verify initialState
  | step (σ σ' : ContractState) (hσ : Reachable verify σ)
      (h : Step verify σ σ') : Reachable verify σ'

/-! ## Concrete states used by the witnesses -/

/-- External verifier that accepts every proof. -/
def acceptAll : Nat → Cleartexts → Nat → Bool := fun _ _ _ => true

/-- External verifier that rejects every proof. -/
def rejectAll : Nat → Cleartexts → Nat → Bool := fun _ _ _ => false

/-- One record (id 1) for model "m" submitted on the fresh contract. -/
def exRecorded : ContractState :=
  recordEncryptedPrediction initialState "m" (.lit 10) (.lit 11) (.lit 12) 99

/-- Analysis requested for record 1; the gateway issued request id 1. -/
def exRequested : ContractState :=
  applyCall exRecorded (requestPerformanceAnalysis exRecorded 1)

/-- The analysis callback delivered cleartexts `(100, 90, 92)` with an
accepted proof for request 1. -/
def exRevealed : ContractState :=
  applyCall exRequested
    (processPerformanceAnalysis acceptAll exRequested 1 (100, 90, 92) 0)

/-- Metrics decryption requested for model "m" on `exRecorded`; the
gateway issued request id 1. -/
def exMetricsRequested : ContractState :=
  requestModelMetricsDecryption exRecorded "m"

/-- The metrics callback processed once for request 1 (it writes
nothing, so this equals `exMetricsRequested`). -/
def exMetricsDone : ContractState :=
  applyCall exMetricsRequested
    (decryptModelMetrics acceptAll exMetricsRequested 1 (1, 2, 3) 0)

/-- Analysis requested on the fresh contract for the nonexistent record
7 — the source accepts it. -/
def exGhostRequested : ContractState :=
  applyCall initialState (requestPerformanceAnalysis initialState 7)

/-- A second analysis request for record 1 while the first is still
pending — the source accepts it too. -/
def exRequestedTwice : ContractState :=
  applyCall exRequested (requestPerformanceAnalysis exRequested 1)

/-- Aggregate update for a modelId that was never monitored — the
source accepts it. -/
def exUpdatedUnknown : ContractState :=
  updateModelMetrics initialState "unseen" (.lit 1) (.lit 2) (.lit 3)

/-- A second record submitted after record 1 was revealed. -/
def exRevealedThenRecord : ContractState :=
  recordEncryptedPrediction exRevealed "m2" (.lit 1) (.lit 1) (.lit 1) 7

/-- Metrics decryption requested for the empty-string modelId on the
fresh contract; the gateway issued request id 1. -/
def exEmptyMetricsRequested : ContractState :=
  requestModelMetricsDecryption initialState ""

/-- One more transaction after `exEmptyMetricsRequested` (a record for
the empty-string model). -/
def exEmptyAfter : ContractState :=
  recordEncryptedPrediction exEmptyMetricsRequested "" (.lit 1) (.lit 2) (.lit 3) 4

/-- Analysis requested on the fresh contract for the not-yet-allocated
record id 2; the gateway issued request id 1. -/
def exGhost2Requested : ContractState :=
  applyCall initialState (requestPerformanceAnalysis initialState 2)

/-- First successful completion of request 1: alert slot 2 becomes
revealed although record 2 does not exist yet. -/
def exGhost2Revealed : ContractState :=
  applyCall exGhost2Requested
    (processPerformanceAnalysis acceptAll exGhost2Requested 1 (100, 90, 92) 0)

/-- Two records submitted after that completion; the second allocates
id 2 and re-zeroes alert slot 2 (source line 66), resetting the replay
guard. -/
def exGhost2Overwritten : ContractState :=
  recordEncryptedPrediction
    (recordEncryptedPrediction exGhost2Revealed "m" (.lit 1) (.lit 1) (.lit 1) 5)
    "m" (.lit 2) (.lit 2) (.lit 2) 6

/-- Second successful completion of the same request 1. -/
def exGhost2Replayed : ContractState :=
  applyCall exGhost2Overwritten
    (processPerformanceAnalysis acceptAll exGhost2Overwritten 1 (10, 9, 9) 0)

/-! ## General lemmas about the operations -/

/-- A successful `calculatePerformanceScore` returns exactly
`100 − (|prediction − groundTruth|·100 / max(input,1))`, and the
quotient is at most 100 (otherwise the checked subtraction panics). -/
theorem calculatePerformanceScore_spec (input prediction groundTruth score : Nat)
    (h : calculatePerformanceScore input prediction groundTruth = some score) :
    Nat.dist prediction groundTruth * 100 / max input 1 ≤ 100 ∧
    score = 100 - Nat.dist prediction groundTruth * 100 / max input 1 := by
  simp only [calculatePerformanceScore] at h
  have hd : (if prediction > groundTruth then prediction - groundTruth
      else groundTruth - prediction) = Nat.dist prediction groundTruth := by
    rw [Nat.dist]; split <;> omega
  have hden : (if input > 0 then input else 1) = max input 1 := by
    split <;> omega
  rw [hd, hden] at h
  split at h
  · split at h
    · exact ⟨by assumption, (Option.some.inj h).symm⟩
    · exact absurd h (by simp)
  · exact absurd h (by simp)

/-- `determineAlertLevel` realizes the fixed thresholds. -/
theorem determineAlertLevel_spec (s : Nat) :
    (s < 50 → determineAlertLevel s = "Critical") ∧
    (50 ≤ s → s < 70 → determineAlertLevel s = "Warning") ∧
    (70 ≤ s → s < 85 → determineAlertLevel s = "Notice") ∧
    (85 ≤ s → determineAlertLevel s = "Normal") := by
  unfold determineAlertLevel
  refine ⟨?_, ?_, ?_, ?_⟩ <;> intros <;> split_ifs <;> first | rfl | omega

/-- Inversion of a successful analysis callback: all four guards passed
and the post-state differs from the pre-state only in the alert written
at the correlated prediction id. -/
theorem processPerformanceAnalysis_ok_elim
    (verify : Nat → Cleartexts → Nat → Bool) (σ σ' : ContractState)
    (requestId : Nat) (cleartexts : Cleartexts) (proof : Nat)
    (h : processPerformanceAnalysis verify σ requestId cleartexts proof = .ok σ') :
    σ.requestToPredictionId requestId ≠ 0 ∧
    (σ.performanceAlerts (σ.requestToPredictionId requestId)).isRevealed = false ∧
    verify requestId cleartexts proof = true ∧
    ∃ score,
      calculatePerformanceScore cleartexts.1 cleartexts.2.1 cleartexts.2.2 = some score ∧
      σ' = { σ with
             performanceAlerts := fun i =>
               if i = σ.requestToPredictionId requestId then
                 { performanceScore := score
                   alertLevel := determineAlertLevel score
                   needsRetraining := decide (score < 60)
                   isRevealed := true }
               else σ.performanceAlerts i } := by
  simp only [processPerformanceAnalysis] at h
  split at h
  · exact absurd h (by simp)
  · split at h
    · exact absurd h (by simp)
    · split at h
      · exact absurd h (by simp)
      · split at h
        · exact absurd h (by simp)
        · rename_i score heq
          exact ⟨by assumption, by simp_all, by simp_all, score, heq,
                 (Except.ok.inj h).symm⟩

/-- C1: a successful analysis callback stores
`score = 100 − (|prediction − groundTruth|·100 / max(input,1))` (integer
division, quotient provably at most 100), the alert level given by the
thresholds `<50 → Critical, <70 → Warning, <85 → Notice, else Normal`,
`needsRetraining` exactly when `score < 60`, and `revealed = true`. -/
theorem completeAnalysis_alert_policy
    (verify : Nat → Cleartexts → Nat → Bool) (σ σ' : ContractState)
    (requestId input prediction groundTruth proof : Nat) (a : DecryptedAlert)
    (hok : processPerformanceAnalysis verify σ requestId
             (input, prediction, groundTruth) proof = .ok σ')
    (ha : a = σ'.performanceAlerts (σ.requestToPredictionId requestId)) :
    a.isRevealed = true ∧
    Nat.dist prediction groundTruth * 100 / max input 1 ≤ 100 ∧
    a.performanceScore = 100 - Nat.dist prediction groundTruth * 100 / max input 1 ∧
    (a.performanceScore < 50 → a.alertLevel = "Critical") ∧
    (50 ≤ a.performanceScore → a.performanceScore < 70 → a.alertLevel = "Warning") ∧
    (70 ≤ a.performanceScore → a.performanceScore < 85 → a.alertLevel = "Notice") ∧
    (85 ≤ a.performanceScore → a.alertLevel = "Normal") ∧
    (a.needsRetraining = true ↔ a.performanceScore < 60) := by
  obtain ⟨hpid, hrev, hver, score, hcalc, hσ'⟩ :=
    processPerformanceAnalysis_ok_elim verify σ σ' requestId
      (input, prediction, groundTruth) proof hok
  obtain ⟨hq, hs⟩ := calculatePerformanceScore_spec input prediction groundTruth score hcalc
  obtain ⟨h50, h70, h85, h100⟩ := determineAlertLevel_spec score
  have hA : a = { performanceScore := score
                  alertLevel := determineAlertLevel score
                  needsRetraining := decide (score < 60)
                  isRevealed := true } := by
    rw [ha, hσ']; simp
  subst hA
  exact ⟨rfl, hq, hs, h50, h70, h85, h100, by simp⟩

/-- Witness for C1: the concrete callback with cleartexts
`(input, prediction, groundTruth) = (100, 90, 92)` stores score 98,
level "Normal", no retraining. -/
theorem completeAnalysis_alert_policy_witness :
    (exRevealed.performanceAlerts (exRequested.requestToPredictionId 1)).isRevealed = true ∧
    Nat.dist 90 92 * 100 / max 100 1 ≤ 100 ∧
    (exRevealed.performanceAlerts (exRequested.requestToPredictionId 1)).performanceScore
      = 100 - Nat.dist 90 92 * 100 / max 100 1 ∧
    ((exRevealed.performanceAlerts (exRequested.requestToPredictionId 1)).performanceScore < 50 →
      (exRevealed.performanceAlerts (exRequested.requestToPredictionId 1)).alertLevel = "Critical") ∧
    (50 ≤ (exRevealed.performanceAlerts (exRequested.requestToPredictionId 1)).performanceScore →
      (exRevealed.performanceAlerts (exRequested.requestToPredictionId 1)).performanceScore < 70 →
      (exRevealed.performanceAlerts (exRequested.requestToPredictionId 1)).alertLevel = "Warning") ∧
    (70 ≤ (exRevealed.performanceAlerts (exRequested.requestToPredictionId 1)).performanceScore →
      (exRevealed.performanceAlerts (exRequested.requestToPredictionId 1)).performanceScore < 85 →
      (exRevealed.performanceAlerts (exRequested.requestToPredictionId 1)).alertLevel = "Notice") ∧
    (85 ≤ (exRevealed.performanceAlerts (exRequested.requestToPredictionId 1)).performanceScore →
      (exRevealed.performanceAlerts (exRequested.requestToPredictionId 1)).alertLevel = "Normal") ∧
    ((exRevealed.performanceAlerts (exRequested.requestToPredictionId 1)).needsRetraining = true ↔
      (exRevealed.performanceAlerts (exRequested.requestToPredictionId 1)).performanceScore < 60) :=
  completeAnalysis_alert_policy acceptAll exRequested exRevealed 1 100 90 92 0
    (exRevealed.performanceAlerts (exRequested.requestToPredictionId 1)) rfl rfl

/-! ### Field-level description of each operation -/

theorem record_predictionCount (σ : ContractState) (m : String)
    (i p g : EU32) (t : Nat) :
    (recordEncryptedPrediction σ m i p g t).predictionCount = σ.predictionCount + 1 := by
  unfold recordEncryptedPrediction; split <;> rfl

theorem record_performanceAlerts (σ : ContractState) (m : String)
    (i p g : EU32) (t : Nat) (j : Nat) :
    (recordEncryptedPrediction σ m i p g t).performanceAlerts j =
      if j = σ.predictionCount + 1 then DecryptedAlert.zero
      else σ.performanceAlerts j := by
  unfold recordEncryptedPrediction; split <;> rfl

theorem record_predictions (σ : ContractState) (m : String)
    (i p g : EU32) (t : Nat) (j : Nat) :
    (recordEncryptedPrediction σ m i p g t).predictions j =
      if j = σ.predictionCount + 1 then
        { id := σ.predictionCount + 1, encryptedInput := i,
          encryptedPrediction := p, encryptedGroundTruth := g,
          timestamp := t, modelId := m }
      else σ.predictions j := by
  unfold recordEncryptedPrediction; split <;> rfl

theorem record_requestToPredictionId (σ : ContractState) (m : String)
    (i p g : EU32) (t : Nat) :
    (recordEncryptedPrediction σ m i p g t).requestToPredictionId =
      σ.requestToPredictionId := by
  unfold recordEncryptedPrediction; split <;> rfl

theorem record_requestToModelId (σ : ContractState) (m : String)
    (i p g : EU32) (t : Nat) :
    (recordEncryptedPrediction σ m i p g t).requestToModelId =
      σ.requestToModelId := by
  unfold recordEncryptedPrediction; split <;> rfl

theorem record_nextRequestId (σ : ContractState) (m : String)
    (i p g : EU32) (t : Nat) :
    (recordEncryptedPrediction σ m i p g t).nextRequestId = σ.nextRequestId := by
  unfold recordEncryptedPrediction; split <;> rfl

theorem record_monitoredModels (σ : ContractState) (m : String)
    (i p g : EU32) (t : Nat) :
    (recordEncryptedPrediction σ m i p g t).monitoredModels =
      if isModelMonitored σ m then σ.monitoredModels
      else σ.monitoredModels ++ [m] := by
  unfold recordEncryptedPrediction
  split <;> simp_all

theorem record_modelPerformance (σ : ContractState) (m : String)
    (i p g : EU32) (t : Nat) (m' : String) :
    (recordEncryptedPrediction σ m i p g t).modelPerformance m' =
      if isModelMonitored σ m then σ.modelPerformance m'
      else if m' = m then
        { encryptedAccuracy := .lit 0, encryptedDriftScore := .lit 0,
          encryptedErrorRate := .lit 0 }
      else σ.modelPerformance m' := by
  unfold recordEncryptedPrediction
  split <;> simp_all

theorem update_fields (σ : ContractState) (m : String) (a d e : EU32) :
    (updateModelMetrics σ m a d e).predictionCount = σ.predictionCount ∧
    (updateModelMetrics σ m a d e).predictions = σ.predictions ∧
    (updateModelMetrics σ m a d e).performanceAlerts = σ.performanceAlerts ∧
    (updateModelMetrics σ m a d e).requestToPredictionId = σ.requestToPredictionId ∧
    (updateModelMetrics σ m a d e).requestToModelId = σ.requestToModelId ∧
    (updateModelMetrics σ m a d e).monitoredModels = σ.monitoredModels ∧
    (updateModelMetrics σ m a d e).nextRequestId = σ.nextRequestId := by
  unfold updateModelMetrics
  exact ⟨rfl, rfl, rfl, rfl, rfl, rfl, rfl⟩

theorem update_modelPerformance (σ : ContractState) (m : String)
    (a d e : EU32) (m' : String) :
    (updateModelMetrics σ m a d e).modelPerformance m' =
      if m' = m then
        { encryptedAccuracy := .add (σ.modelPerformance m).encryptedAccuracy a
          encryptedDriftScore := .add (σ.modelPerformance m).encryptedDriftScore d
          encryptedErrorRate := .add (σ.modelPerformance m).encryptedErrorRate e }
      else σ.modelPerformance m' := by
  unfold updateModelMetrics; rfl

theorem requestMetrics_fields (σ : ContractState) (m : String) :
    (requestModelMetricsDecryption σ m).predictionCount = σ.predictionCount ∧
    (requestModelMetricsDecryption σ m).predictions = σ.predictions ∧
    (requestModelMetricsDecryption σ m).modelPerformance = σ.modelPerformance ∧
    (requestModelMetricsDecryption σ m).performanceAlerts = σ.performanceAlerts ∧
    (requestModelMetricsDecryption σ m).requestToPredictionId = σ.requestToPredictionId ∧
    (requestModelMetricsDecryption σ m).monitoredModels = σ.monitoredModels ∧
    (requestModelMetricsDecryption σ m).nextRequestId = σ.nextRequestId + 1 := by
  unfold requestModelMetricsDecryption
  exact ⟨rfl, rfl, rfl, rfl, rfl, rfl, rfl⟩

theorem requestMetrics_requestToModelId (σ : ContractState) (m : String) (r : Nat) :
    (requestModelMetricsDecryption σ m).requestToModelId r =
      if r = σ.nextRequestId then m else σ.requestToModelId r := by
  unfold requestModelMetricsDecryption; rfl

/-- Inversion of a successful `requestPerformanceAnalysis`: the revealed
guard passed and the only changes are the new correlation entry and the
gateway counter. -/
theorem requestPerformanceAnalysis_ok_elim (σ σ' : ContractState)
    (predictionId : Nat)
    (h : requestPerformanceAnalysis σ predictionId = .ok σ') :
    (σ.performanceAlerts predictionId).isRevealed = false ∧
    σ' = { σ with
           requestToPredictionId := fun r =>
             if r = σ.nextRequestId then predictionId
             else σ.requestToPredictionId r
           nextRequestId := σ.nextRequestId + 1 } := by
  simp only [requestPerformanceAnalysis] at h
  split at h
  · exact absurd h (by simp)
  · exact ⟨by simp_all, (Except.ok.inj h).symm⟩

/-- Inversion of a successful `decryptModelMetrics`: the stored modelId
is non-empty, the proof verified, and nothing at all was written. -/
theorem decryptModelMetrics_ok_elim (verify : Nat → Cleartexts → Nat → Bool)
    (σ σ' : ContractState) (requestId : Nat) (cleartexts : Cleartexts)
    (proof : Nat)
    (h : decryptModelMetrics verify σ requestId cleartexts proof = .ok σ') :
    (σ.requestToModelId requestId).length ≠ 0 ∧
    verify requestId cleartexts proof = true ∧ σ' = σ := by
  simp only [decryptModelMetrics] at h
  split at h
  · exact absurd h (by simp)
  · split at h
    · exact absurd h (by simp)
    · exact ⟨by assumption, by simp_all, (Except.ok.inj h).symm⟩

/-- C2: a failed analysis callback reverts, leaving the entire state
unchanged; in particular a forged proof on a live, unrevealed request
fails with `invalidProof` (so `revealed` is never flipped and the
correlation is not consumed), and the same request can then be completed
by a retry whose proof verifies. -/
theorem completeAnalysis_failure_keeps_state
    (verify : Nat → Cleartexts → Nat → Bool) (σ : ContractState)
    (requestId : Nat) (cleartexts : Cleartexts) (proof : Nat) :
    (∀ e, processPerformanceAnalysis verify σ requestId cleartexts proof = .error e →
       applyCall σ (processPerformanceAnalysis verify σ requestId cleartexts proof) = σ) ∧
    (verify requestId cleartexts proof = false →
     σ.requestToPredictionId requestId ≠ 0 →
     (σ.performanceAlerts (σ.requestToPredictionId requestId)).isRevealed = false →
     processPerformanceAnalysis verify σ requestId cleartexts proof = .error .invalidProof) ∧
    (∀ (verify2 : Nat → Cleartexts → Nat → Bool) (cleartexts2 : Cleartexts)
       (proof2 score : Nat),
       verify2 requestId cleartexts2 proof2 = true →
       σ.requestToPredictionId requestId ≠ 0 →
       (σ.performanceAlerts (σ.requestToPredictionId requestId)).isRevealed = false →
       calculatePerformanceScore cleartexts2.1 cleartexts2.2.1 cleartexts2.2.2 = some score →
       processPerformanceAnalysis verify2 σ requestId cleartexts2 proof2 =
         .ok { σ with
               performanceAlerts := fun i =>
                 if i = σ.requestToPredictionId requestId then
                   { performanceScore := score
                     alertLevel := determineAlertLevel score
                     needsRetraining := decide (score < 60)
                     isRevealed := true }
                 else σ.performanceAlerts i }) := by
  refine ⟨?_, ?_, ?_⟩
  · intro e h
    simp [applyCall, h]
  · intro hv hp hr
    simp only [processPerformanceAnalysis]
    rw [if_neg hp, if_neg (by simp [hr]), if_pos hv]
  · intro v2 c2 p2 s hv hp hr hc
    simp only [processPerformanceAnalysis]
    rw [if_neg hp, if_neg (by simp [hr]), if_neg (by simp [hv]), hc]

/-- Witness for C2: on `exRequested` (record 1 live under request 1,
unrevealed) a forged proof fails with `invalidProof` and the state is
untouched. -/
theorem completeAnalysis_failure_keeps_state_witness :
    processPerformanceAnalysis rejectAll exRequested 1 (100, 90, 92) 0 =
      .error .invalidProof ∧
    applyCall exRequested
      (processPerformanceAnalysis rejectAll exRequested 1 (100, 90, 92) 0) =
      exRequested := by
  have h := completeAnalysis_failure_keeps_state rejectAll exRequested 1 (100, 90, 92) 0
  have herr := h.2.1 rfl (by decide) (by decide)
  exact ⟨herr, h.1 .invalidProof herr⟩

/-- C4 counterexample: on the fresh contract no record exists, yet
`requestPerformanceAnalysis 7` succeeds (`exGhostRequested`); and a
second request for the still-pending, never-completed record 1 succeeds
(`exRequestedTwice`) instead of failing with AlreadyPending, leaving two
live correlations to the same record. -/
theorem requestAnalysis_guard_counterexample :
    initialState.predictionCount = 0 ∧
    requestPerformanceAnalysis initialState 7 = .ok exGhostRequested ∧
    exRequested.requestToPredictionId 1 = 1 ∧
    requestPerformanceAnalysis exRequested 1 = .ok exRequestedTwice ∧
    exRequestedTwice.requestToPredictionId 1 = 1 ∧
    exRequestedTwice.requestToPredictionId 2 = 1 :=
  ⟨rfl, rfl, rfl, rfl, rfl, rfl⟩

/-- C4 (amended): `requestPerformanceAnalysis` checks only the revealed
flag. On an already-revealed target it fails with `alreadyAnalyzed`,
leaving the state unchanged; on any unrevealed target it succeeds —
whether or not the record exists, and whether or not a request for the
same record is already in flight — writing only the new correlation and
the gateway counter. -/
theorem requestAnalysis_guard (σ : ContractState) (predictionId : Nat) :
    ((σ.performanceAlerts predictionId).isRevealed = true →
      requestPerformanceAnalysis σ predictionId = .error .alreadyAnalyzed ∧
      applyCall σ (requestPerformanceAnalysis σ predictionId) = σ) ∧
    ((σ.performanceAlerts predictionId).isRevealed = false →
      requestPerformanceAnalysis σ predictionId =
        .ok { σ with
              requestToPredictionId := fun r =>
                if r = σ.nextRequestId then predictionId
                else σ.requestToPredictionId r
              nextRequestId := σ.nextRequestId + 1 }) := by
  constructor
  · intro h
    have herr : requestPerformanceAnalysis σ predictionId = .error .alreadyAnalyzed := by
      simp [requestPerformanceAnalysis, h]
    exact ⟨herr, by simp [applyCall, herr]⟩
  · intro h
    simp [requestPerformanceAnalysis, h]

/-- Witness for C4 (amended): the revealed record 1 in `exRevealed` is
rejected with `alreadyAnalyzed` and nothing changes; the unrevealed
record 1 in `exRecorded` is accepted. -/
theorem requestAnalysis_guard_witness :
    (requestPerformanceAnalysis exRevealed 1 = .error .alreadyAnalyzed ∧
     applyCall exRevealed (requestPerformanceAnalysis exRevealed 1) = exRevealed) ∧
    requestPerformanceAnalysis exRecorded 1 =
      .ok { exRecorded with
            requestToPredictionId := fun r =>
              if r = exRecorded.nextRequestId then 1
              else exRecorded.requestToPredictionId r
            nextRequestId := exRecorded.nextRequestId + 1 } :=
  ⟨(requestAnalysis_guard exRevealed 1).1 rfl,
   (requestAnalysis_guard exRecorded 1).2 rfl⟩

/-- C6 counterexample: "unseen" was never monitored, yet
`updateModelMetrics` succeeds (it is total — there is no UnknownModel
check), homomorphically accumulating into the default aggregate, and
still does not register the model as monitored. -/
theorem updateAggregate_unknown_model_counterexample :
    isModelMonitored initialState "unseen" = false ∧
    exUpdatedUnknown.modelPerformance "unseen" =
      { encryptedAccuracy := .add PerformanceMetrics.zero.encryptedAccuracy (.lit 1)
        encryptedDriftScore := .add PerformanceMetrics.zero.encryptedDriftScore (.lit 2)
        encryptedErrorRate := .add PerformanceMetrics.zero.encryptedErrorRate (.lit 3) } ∧
    isModelMonitored exUpdatedUnknown "unseen" = false :=
  ⟨rfl, rfl, rfl⟩

/-- C6 (amended): `updateModelMetrics` performs no monitored-model check
and never fails: for every modelId — monitored or not — it adds the
three deltas into that model's aggregate (the default zero-handle
aggregate when the model was never seen), leaves every other model's
aggregate and all remaining state unchanged, and does not change the
monitored set. -/
theorem updateAggregate_no_unknown_model_check (σ : ContractState)
    (modelId : String) (accuracy drift errorRate : EU32) (σ' : ContractState)
    (h : σ' = updateModelMetrics σ modelId accuracy drift errorRate) :
    σ'.modelPerformance modelId =
      { encryptedAccuracy := .add (σ.modelPerformance modelId).encryptedAccuracy accuracy
        encryptedDriftScore := .add (σ.modelPerformance modelId).encryptedDriftScore drift
        encryptedErrorRate := .add (σ.modelPerformance modelId).encryptedErrorRate errorRate } ∧
    (∀ m, m ≠ modelId → σ'.modelPerformance m = σ.modelPerformance m) ∧
    σ'.monitoredModels = σ.monitoredModels ∧
    isModelMonitored σ' modelId = isModelMonitored σ modelId ∧
    σ'.predictionCount = σ.predictionCount ∧
    σ'.predictions = σ.predictions ∧
    σ'.performanceAlerts = σ.performanceAlerts ∧
    σ'.requestToPredictionId = σ.requestToPredictionId ∧
    σ'.requestToModelId = σ.requestToModelId ∧
    σ'.nextRequestId = σ.nextRequestId := by
  subst h
  obtain ⟨h1, h2, h3, h4, h5, h6, h7⟩ :=
    update_fields σ modelId accuracy drift errorRate
  refine ⟨?_, ?_, h6, ?_, h1, h2, h3, h4, h5, h7⟩
  · rw [update_modelPerformance]; simp
  · intro m hm
    rw [update_modelPerformance, if_neg hm]
  · simp [isModelMonitored, h6]

/-- Witness for C6 (amended) on the concrete unmonitored update. -/
theorem updateAggregate_no_unknown_model_check_witness :
    exUpdatedUnknown.modelPerformance "unseen" =
      { encryptedAccuracy := .add (initialState.modelPerformance "unseen").encryptedAccuracy (.lit 1)
        encryptedDriftScore := .add (initialState.modelPerformance "unseen").encryptedDriftScore (.lit 2)
        encryptedErrorRate := .add (initialState.modelPerformance "unseen").encryptedErrorRate (.lit 3) } ∧
    exUpdatedUnknown.modelPerformance "other" = initialState.modelPerformance "other" ∧
    exUpdatedUnknown.monitoredModels = initialState.monitoredModels ∧
    isModelMonitored exUpdatedUnknown "unseen" = isModelMonitored initialState "unseen" ∧
    exUpdatedUnknown.performanceAlerts = initialState.performanceAlerts := by
  have h := updateAggregate_no_unknown_model_check initialState "unseen"
    (.lit 1) (.lit 2) (.lit 3) exUpdatedUnknown rfl
  exact ⟨h.1, h.2.1 "other" (by decide), h.2.2.1, h.2.2.2.1, h.2.2.2.2.2.2.1⟩

/-- C9: the aggregate-metrics decryption path is read-only apart from
the pending correlation. `requestModelMetricsDecryption` leaves every
alert, record, aggregate, the monitored set and the analysis
correlations unchanged, writing only `requestToModelId` at the issued
request id (plus the gateway counter); a successful
`decryptModelMetrics` callback writes nothing at all. -/
theorem metricsDecryption_frame
    (verify : Nat → Cleartexts → Nat → Bool) (σ σr τ τ' : ContractState)
    (modelId : String) (requestId : Nat) (cleartexts : Cleartexts) (proof : Nat)
    (hr : σr = requestModelMetricsDecryption σ modelId) :
    σr.predictionCount = σ.predictionCount ∧
    σr.predictions = σ.predictions ∧
    σr.modelPerformance = σ.modelPerformance ∧
    σr.performanceAlerts = σ.performanceAlerts ∧
    σr.requestToPredictionId = σ.requestToPredictionId ∧
    σr.monitoredModels = σ.monitoredModels ∧
    σr.requestToModelId σ.nextRequestId = modelId ∧
    (∀ r, r ≠ σ.nextRequestId → σr.requestToModelId r = σ.requestToModelId r) ∧
    (decryptModelMetrics verify τ requestId cleartexts proof = .ok τ' → τ' = τ) := by
  subst hr
  obtain ⟨h1, h2, h3, h4, h5, h6, h7⟩ := requestMetrics_fields σ modelId
  refine ⟨h1, h2, h3, h4, h5, h6, ?_, ?_, ?_⟩
  · rw [requestMetrics_requestToModelId]; simp
  · intro r hrne
    rw [requestMetrics_requestToModelId, if_neg hrne]
  · intro hok
    exact (decryptModelMetrics_ok_elim verify τ τ' requestId cleartexts
      proof hok).2.2

/-- Witness for C9 on the concrete metrics run for model "m". -/
theorem metricsDecryption_frame_witness :
    exMetricsRequested.predictionCount = exRecorded.predictionCount ∧
    exMetricsRequested.modelPerformance = exRecorded.modelPerformance ∧
    exMetricsRequested.performanceAlerts = exRecorded.performanceAlerts ∧
    exMetricsRequested.requestToModelId exRecorded.nextRequestId = "m" ∧
    exMetricsRequested.requestToModelId 2 = exRecorded.requestToModelId 2 ∧
    exMetricsDone = exMetricsRequested := by
  have h := metricsDecryption_frame acceptAll exRecorded exMetricsRequested
    exMetricsRequested exMetricsDone "m" 1 (1, 2, 3) 0 rfl
  exact ⟨h.1, h.2.2.1, h.2.2.2.1, h.2.2.2.2.2.2.1,
         h.2.2.2.2.2.2.2.1 2 (by decide), h.2.2.2.2.2.2.2.2 rfl⟩

/-- C5: in every reachable state, a revealed alert's score is at most
100 (it is a `Nat`, hence at least 0). In the unclamped case where
`error·100` exceeds `100·max(input,1)` — e.g. input 0, prediction 5,
groundTruth 0 — `calculatePerformanceScore` panics on the checked
`uint32` subtraction, so the callback reverts and no value at all is
recorded: the score is never out of range. -/
theorem revealed_score_in_range (verify : Nat → Cleartexts → Nat → Bool)
    (σ : ContractState) (h : Reachable verify σ) :
    (∀ id, (σ.performanceAlerts id).isRevealed = true →
       (σ.performanceAlerts id).performanceScore ≤ 100) ∧
    calculatePerformanceScore 0 5 0 = none := by
  refine ⟨?_, by decide⟩
  induction h with
  | init =>
    intro id hrev
    simp [initialState, DecryptedAlert.zero] at hrev
  | step σ σ' hσ hstep ih =>
    intro id hrev
    cases hstep with
    | record m i p g t =>
      rw [record_performanceAlerts] at hrev ⊢
      by_cases hid : id = σ.predictionCount + 1
      · rw [if_pos hid] at hrev
        simp [DecryptedAlert.zero] at hrev
      · rw [if_neg hid] at hrev ⊢
        exact ih id hrev
    | requestAnalysis _ pid hok =>
      obtain ⟨-, hσ'⟩ := requestPerformanceAnalysis_ok_elim σ σ' pid hok
      subst hσ'
      exact ih id hrev
    | processAnalysis _ r c pf hb1 hb2 hb3 hok =>
      obtain ⟨hpid, hrev0, hver, score, hcalc, hσ'⟩ :=
        processPerformanceAnalysis_ok_elim verify σ σ' r c pf hok
      obtain ⟨hq, hs⟩ :=
        calculatePerformanceScore_spec c.1 c.2.1 c.2.2 score hcalc
      subst hσ'
      by_cases hid : id = σ.requestToPredictionId r
      · have hb : score ≤ 100 := by rw [hs]; exact Nat.sub_le _ _
        simpa [hid] using hb
      · simp only [if_neg hid] at hrev ⊢
        exact ih id hrev
    | update m a d e =>
      exact ih id hrev
    | requestMetrics m =>
      exact ih id hrev
    | decryptMetrics _ r c pf hb1 hb2 hb3 hok =>
      obtain ⟨-, -, hσ'⟩ := decryptModelMetrics_ok_elim verify σ σ' r c pf hok
      subst hσ'
      exact ih id hrev

/-- Witness for C5 at the reachable state `exRevealed` (record 1
revealed with score 98) and at the flagged unclamped input. -/
theorem revealed_score_in_range_witness :
    (exRevealed.performanceAlerts 1).isRevealed = true ∧
    (exRevealed.performanceAlerts 1).performanceScore ≤ 100 ∧
    calculatePerformanceScore 0 5 0 = none := by
  have hreach : Reachable acceptAll exRevealed :=
    .step exRequested exRevealed
      (.step exRecorded exRequested
        (.step initialState exRecorded .init
          (.record initialState "m" (.lit 10) (.lit 11) (.lit 12) 99))
        (.requestAnalysis exRecorded exRequested 1 rfl))
      (.processAnalysis exRequested exRevealed 1 (100, 90, 92) 0
        (by decide) (by decide) (by decide) rfl)
  have h := revealed_score_in_range acceptAll exRevealed hreach
  exact ⟨rfl, h.1 1 rfl, h.2⟩

/-- C7: per-record write-once discipline. (1) `predictionCount` never
decreases, so existing records stay existing. (2) Once an existing
record's alert is revealed, no step changes any field of that alert
(hence `revealed` never reverses). (3) In every reachable state an
existing record's alert is still the zeroed initial state while
unrevealed — so score, level and needsRetraining are written exactly
once, in the same step that sets `revealed = true`. -/
theorem alertState_write_once (verify : Nat → Cleartexts → Nat → Bool) :
    (∀ σ σ', Step verify σ σ' → σ.predictionCount ≤ σ'.predictionCount) ∧
    (∀ σ σ', Step verify σ σ' → ∀ id, id ≤ σ.predictionCount →
       (σ.performanceAlerts id).isRevealed = true →
       σ'.performanceAlerts id = σ.performanceAlerts id) ∧
    (∀ σ, Reachable verify σ → ∀ id, 1 ≤ id → id ≤ σ.predictionCount →
       (σ.performanceAlerts id).isRevealed = false →
       σ.performanceAlerts id = DecryptedAlert.zero) := by
  refine ⟨?_, ?_, ?_⟩
  · intro σ σ' hstep
    cases hstep with
    | record m i p g t => rw [record_predictionCount]; omega
    | requestAnalysis _ pid hok =>
      obtain ⟨-, hσ'⟩ := requestPerformanceAnalysis_ok_elim σ σ' pid hok
      subst hσ'; exact Nat.le_refl _
    | processAnalysis _ r c pf hb1 hb2 hb3 hok =>
      obtain ⟨-, -, -, score, -, hσ'⟩ :=
        processPerformanceAnalysis_ok_elim verify σ σ' r c pf hok
      subst hσ'; exact Nat.le_refl _
    | update m a d e => exact Nat.le_refl _
    | requestMetrics m => exact Nat.le_refl _
    | decryptMetrics _ r c pf hb1 hb2 hb3 hok =>
      obtain ⟨-, -, hσ'⟩ := decryptModelMetrics_ok_elim verify σ σ' r c pf hok
      subst hσ'; exact Nat.le_refl _
  · intro σ σ' hstep id hle hrev
    cases hstep with
    | record m i p g t =>
      rw [record_performanceAlerts, if_neg (by omega)]
    | requestAnalysis _ pid hok =>
      obtain ⟨-, hσ'⟩ := requestPerformanceAnalysis_ok_elim σ σ' pid hok
      subst hσ'; rfl
    | processAnalysis _ r c pf hb1 hb2 hb3 hok =>
      obtain ⟨-, hrev0, -, score, -, hσ'⟩ :=
        processPerformanceAnalysis_ok_elim verify σ σ' r c pf hok
      subst hσ'
      have hid : ¬(id = σ.requestToPredictionId r) := by
        intro he
        rw [he] at hrev
        rw [hrev] at hrev0
        exact absurd hrev0 (by decide)
      simp [hid]
    | update m a d e => rfl
    | requestMetrics m => rfl
    | decryptMetrics _ r c pf hb1 hb2 hb3 hok =>
      obtain ⟨-, -, hσ'⟩ := decryptModelMetrics_ok_elim verify σ σ' r c pf hok
      subst hσ'; rfl
  · intro σ hreach
    induction hreach with
    | init =>
      intro id h1 h2 hrev
      simp [initialState] at h2
      omega
    | step σ σ' hσ hstep ih =>
      intro id h1 h2 hrev
      cases hstep with
      | record m i p g t =>
        rw [record_performanceAlerts] at hrev ⊢
        rw [record_predictionCount] at h2
        by_cases hid : id = σ.predictionCount + 1
        · rw [if_pos hid]
        · rw [if_neg hid] at hrev ⊢
          exact ih id h1 (by omega) hrev
      | requestAnalysis _ pid hok =>
        obtain ⟨-, hσ'⟩ := requestPerformanceAnalysis_ok_elim σ σ' pid hok
        subst hσ'
        exact ih id h1 h2 hrev
      | processAnalysis _ r c pf hb1 hb2 hb3 hok =>
        obtain ⟨-, hrev0, -, score, -, hσ'⟩ :=
          processPerformanceAnalysis_ok_elim verify σ σ' r c pf hok
        subst hσ'
        by_cases hid : id = σ.requestToPredictionId r
        · simp [hid] at hrev
        · simp only [if_neg hid] at hrev ⊢
          exact ih id h1 h2 hrev
      | update m a d e => exact ih id h1 h2 hrev
      | requestMetrics m => exact ih id h1 h2 hrev
      | decryptMetrics _ r c pf hb1 hb2 hb3 hok =>
        obtain ⟨-, -, hσ'⟩ := decryptModelMetrics_ok_elim verify σ σ' r c pf hok
        subst hσ'
        exact ih id h1 h2 hrev

/-- Witness for C7: a step after the reveal leaves record 1's alert
untouched; before the reveal the alert of the existing record 1 is the
zeroed initial state; counts never decrease along the concrete step. -/
theorem alertState_write_once_witness :
    exRecorded.predictionCount ≤ exRequested.predictionCount ∧
    exRevealedThenRecord.performanceAlerts 1 = exRevealed.performanceAlerts 1 ∧
    exRecorded.performanceAlerts 1 = DecryptedAlert.zero := by
  have h := alertState_write_once acceptAll
  exact ⟨h.1 exRecorded exRequested (.requestAnalysis exRecorded exRequested 1 rfl),
         h.2.1 exRevealed exRevealedThenRecord
           (.record exRevealed "m2" (.lit 1) (.lit 1) (.lit 1) 7) 1 (by decide) rfl,
         h.2.2 exRecorded
           (.step initialState exRecorded .init
             (.record initialState "m" (.lit 10) (.lit 11) (.lit 12) 99))
           1 (by decide) (by decide) rfl⟩

/-- Submitting a record leaves its modelId monitored (whether it was
already monitored or just registered). -/
theorem record_registers (σ : ContractState) (m : String)
    (i p g : EU32) (t : Nat) :
    isModelMonitored (recordEncryptedPrediction σ m i p g t) m = true := by
  rw [isModelMonitored, record_monitoredModels]
  by_cases hm : isModelMonitored σ m = true
  · rw [if_pos hm]
    exact hm
  · rw [if_neg hm]
    simp

/-- A monitored model stays monitored across every step (nothing is ever
removed from `monitoredModels`). -/
theorem step_monitored_mono (verify : Nat → Cleartexts → Nat → Bool)
    (σ σ' : ContractState) (hstep : Step verify σ σ') (m : String)
    (hm : isModelMonitored σ m = true) : isModelMonitored σ' m = true := by
  cases hstep with
  | record m2 i p g t =>
    rw [isModelMonitored, record_monitoredModels]
    rw [isModelMonitored] at hm
    by_cases h2 : isModelMonitored σ m2 = true
    · rw [if_pos h2]; exact hm
    · rw [if_neg h2]
      simp only [List.any_append, hm, Bool.true_or]
  | requestAnalysis _ pid hok =>
    obtain ⟨-, hσ'⟩ := requestPerformanceAnalysis_ok_elim σ σ' pid hok
    subst hσ'; exact hm
  | processAnalysis _ r c pf hb1 hb2 hb3 hok =>
    obtain ⟨-, -, -, s, -, hσ'⟩ :=
      processPerformanceAnalysis_ok_elim verify σ σ' r c pf hok
    subst hσ'; exact hm
  | update m2 a d e => exact hm
  | requestMetrics m2 => exact hm
  | decryptMetrics _ r c pf hb1 hb2 hb3 hok =>
    obtain ⟨-, -, hσ'⟩ := decryptModelMetrics_ok_elim verify σ σ' r c pf hok
    subst hσ'; exact hm

/-- A monitored model stays monitored along any sequence of steps. -/
theorem trace_monitored_mono (verify : Nat → Cleartexts → Nat → Bool)
    (σ τ : ContractState) (h : Relation.ReflTransGen (Step verify) σ τ)
    (m : String) (hm : isModelMonitored σ m = true) :
    isModelMonitored τ m = true := by
  induction h with
  | refl => exact hm
  | tail hab hbc ih => exact step_monitored_mono verify _ _ hbc m ih

/-- Existing records are never modified by any step. -/
theorem step_predictions_frozen (verify : Nat → Cleartexts → Nat → Bool)
    (σ σ' : ContractState) (hstep : Step verify σ σ') (j : Nat)
    (hj : j ≤ σ.predictionCount) : σ'.predictions j = σ.predictions j := by
  cases hstep with
  | record m i p g t => rw [record_predictions, if_neg (by omega)]
  | requestAnalysis _ pid hok =>
    obtain ⟨-, hσ'⟩ := requestPerformanceAnalysis_ok_elim σ σ' pid hok
    subst hσ'; rfl
  | processAnalysis _ r c pf hb1 hb2 hb3 hok =>
    obtain ⟨-, -, -, s, -, hσ'⟩ :=
      processPerformanceAnalysis_ok_elim verify σ σ' r c pf hok
    subst hσ'; rfl
  | update m a d e => rfl
  | requestMetrics m => rfl
  | decryptMetrics _ r c pf hb1 hb2 hb3 hok =>
    obtain ⟨-, -, hσ'⟩ := decryptModelMetrics_ok_elim verify σ σ' r c pf hok
    subst hσ'; rfl

/-- C8: `recordEncryptedPrediction` allocates the fresh sequential id
`predictionCount + 1`, distinct from every previously assigned id;
stores the record there (and no step ever modifies an existing record);
initializes the alert to the zeroed unrevealed state; registers a new
modelId with the `FHE.asEuint32(0)` additive-identity aggregate; and the
modelId is monitored from then on, forever (monotone along any trace). -/
theorem submitRecord_spec (verify : Nat → Cleartexts → Nat → Bool)
    (σ σ' : ContractState) (modelId : String)
    (input prediction groundTruth : EU32) (timestamp : Nat)
    (h : σ' = recordEncryptedPrediction σ modelId input prediction groundTruth timestamp) :
    σ'.predictionCount = σ.predictionCount + 1 ∧
    (∀ j, 1 ≤ j → j ≤ σ.predictionCount → σ'.predictionCount ≠ j) ∧
    σ'.predictions σ'.predictionCount =
      { id := σ.predictionCount + 1, encryptedInput := input,
        encryptedPrediction := prediction, encryptedGroundTruth := groundTruth,
        timestamp := timestamp, modelId := modelId } ∧
    σ'.performanceAlerts σ'.predictionCount = DecryptedAlert.zero ∧
    (isModelMonitored σ modelId = false →
      σ'.monitoredModels = σ.monitoredModels ++ [modelId] ∧
      σ'.modelPerformance modelId =
        { encryptedAccuracy := .lit 0, encryptedDriftScore := .lit 0,
          encryptedErrorRate := .lit 0 }) ∧
    isModelMonitored σ' modelId = true ∧
    (∀ τ τ', Relation.ReflTransGen (Step verify) τ τ' →
       isModelMonitored τ modelId = true → isModelMonitored τ' modelId = true) ∧
    (∀ τ τ', Step verify τ τ' → ∀ j, j ≤ τ.predictionCount →
       τ'.predictions j = τ.predictions j) := by
  subst h
  refine ⟨record_predictionCount σ modelId input prediction groundTruth timestamp,
          ?_, ?_, ?_, ?_,
          record_registers σ modelId input prediction groundTruth timestamp,
          ?_, ?_⟩
  · intro j h1 h2
    rw [record_predictionCount]
    omega
  · rw [record_predictionCount, record_predictions, if_pos rfl]
  · rw [record_predictionCount, record_performanceAlerts, if_pos rfl]
  · intro hm
    constructor
    · rw [record_monitoredModels, if_neg (by simp [hm])]
    · rw [record_modelPerformance, if_neg (by simp [hm]), if_pos rfl]
  · intro τ τ' htr hmon
    exact trace_monitored_mono verify τ τ' htr modelId hmon
  · intro τ τ' hstep j hj
    exact step_predictions_frozen verify τ τ' hstep j hj

/-- Witness for C8 on the first record for model "m". -/
theorem submitRecord_spec_witness :
    exRecorded.predictionCount = initialState.predictionCount + 1 ∧
    exRecorded.predictions exRecorded.predictionCount =
      { id := 1, encryptedInput := .lit 10, encryptedPrediction := .lit 11,
        encryptedGroundTruth := .lit 12, timestamp := 99, modelId := "m" } ∧
    exRecorded.performanceAlerts exRecorded.predictionCount = DecryptedAlert.zero ∧
    exRecorded.monitoredModels = initialState.monitoredModels ++ ["m"] ∧
    isModelMonitored exRecorded "m" = true ∧
    isModelMonitored exRequested "m" = true ∧
    exRequested.predictions 1 = exRecorded.predictions 1 := by
  have h := submitRecord_spec acceptAll initialState exRecorded "m"
    (.lit 10) (.lit 11) (.lit 12) 99 rfl
  exact ⟨h.1, h.2.2.1, h.2.2.2.1, (h.2.2.2.2.1 rfl).1, h.2.2.2.2.2.1,
         h.2.2.2.2.2.2.1 exRecorded exRequested
           (Relation.ReflTransGen.tail Relation.ReflTransGen.refl
             (.requestAnalysis exRecorded exRequested 1 rfl))
           h.2.2.2.2.2.1,
         h.2.2.2.2.2.2.2 exRecorded exRequested
           (.requestAnalysis exRecorded exRequested 1 rfl) 1 (by decide)⟩

/-- A request-id slot below the gateway counter keeps its stored modelId
across every step, and the counter never decreases. -/
theorem step_requestToModelId_stable (verify : Nat → Cleartexts → Nat → Bool)
    (σ σ' : ContractState) (hstep : Step verify σ σ') (r : Nat)
    (hr : r < σ.nextRequestId) :
    σ'.requestToModelId r = σ.requestToModelId r ∧ r < σ'.nextRequestId := by
  cases hstep with
  | record m i p g t =>
    rw [record_requestToModelId, record_nextRequestId]
    exact ⟨rfl, hr⟩
  | requestAnalysis _ pid hok =>
    obtain ⟨-, hσ'⟩ := requestPerformanceAnalysis_ok_elim σ σ' pid hok
    subst hσ'
    refine ⟨rfl, ?_⟩
    show r < σ.nextRequestId + 1
    omega
  | processAnalysis _ r2 c pf hb1 hb2 hb3 hok =>
    obtain ⟨-, -, -, s, -, hσ'⟩ :=
      processPerformanceAnalysis_ok_elim verify σ σ' r2 c pf hok
    subst hσ'
    exact ⟨rfl, hr⟩
  | update m a d e => exact ⟨rfl, hr⟩
  | requestMetrics m =>
    rw [requestMetrics_requestToModelId, if_neg (by omega)]
    refine ⟨rfl, ?_⟩
    rw [(requestMetrics_fields σ m).2.2.2.2.2.2]
    omega
  | decryptMetrics _ r2 c pf hb1 hb2 hb3 hok =>
    obtain ⟨-, -, hσ'⟩ := decryptModelMetrics_ok_elim verify σ σ' r2 c pf hok
    subst hσ'
    exact ⟨rfl, hr⟩

/-- C10: the contract accepts the empty string as a modelId — a record
for "" is stored and "" becomes monitored — and
`requestModelMetricsDecryption ""` issues a request whose stored modelId
is the empty string; but `decryptModelMetrics` treats an empty stored
modelId as "request never issued", so in every later state the callback
for that request id fails with `invalidRequest`: the metrics decryption
for the empty modelId can never complete. -/
theorem emptyModelId_metrics_never_completes
    (verify : Nat → Cleartexts → Nat → Bool) (σ σ' τ : ContractState)
    (input prediction groundTruth : EU32) (timestamp : Nat)
    (hσ' : σ' = requestModelMetricsDecryption σ "")
    (hτ : Relation.ReflTransGen (Step verify) σ' τ)
    (cleartexts : Cleartexts) (proof : Nat) :
    isModelMonitored
      (recordEncryptedPrediction σ "" input prediction groundTruth timestamp) "" = true ∧
    σ'.requestToModelId σ.nextRequestId = "" ∧
    decryptModelMetrics verify τ σ.nextRequestId cleartexts proof =
      .error .invalidRequest := by
  subst hσ'
  have hbase : (requestModelMetricsDecryption σ "").requestToModelId σ.nextRequestId = "" := by
    rw [requestMetrics_requestToModelId, if_pos rfl]
  have hkey : τ.requestToModelId σ.nextRequestId = "" ∧
      σ.nextRequestId < τ.nextRequestId := by
    induction hτ with
    | refl =>
      refine ⟨hbase, ?_⟩
      rw [(requestMetrics_fields σ "").2.2.2.2.2.2]
      omega
    | tail hab hbc ih =>
      obtain ⟨h1, h2⟩ := ih
      obtain ⟨h1', h2'⟩ := step_requestToModelId_stable verify _ _ hbc _ h2
      exact ⟨h1'.trans h1, h2'⟩
  refine ⟨record_registers σ "" input prediction groundTruth timestamp, hbase, ?_⟩
  simp [decryptModelMetrics, hkey.1]

/-- Witness for C10: the empty-model metrics request 1 on the fresh
contract; after one more transaction the callback still fails with
`invalidRequest`. -/
theorem emptyModelId_metrics_never_completes_witness :
    isModelMonitored
      (recordEncryptedPrediction initialState "" (.lit 1) (.lit 2) (.lit 3) 4) "" = true ∧
    exEmptyMetricsRequested.requestToModelId 1 = "" ∧
    decryptModelMetrics acceptAll exEmptyAfter 1 (1, 2, 3) 0 =
      .error .invalidRequest := by
  have h := emptyModelId_metrics_never_completes acceptAll initialState
    exEmptyMetricsRequested exEmptyAfter (.lit 1) (.lit 2) (.lit 3) 4 rfl
    (Relation.ReflTransGen.tail Relation.ReflTransGen.refl
      (.record exEmptyMetricsRequested "" (.lit 1) (.lit 2) (.lit 3) 4))
    (1, 2, 3) 0
  exact h

/-- In a reachable state, every request id the gateway has not issued
yet holds the zero correlation: nonzero entries only exist below the
counter. -/
theorem reachable_corr_bound (verify : Nat → Cleartexts → Nat → Bool)
    (σ : ContractState) (h : Reachable verify σ) :
    ∀ r, σ.nextRequestId ≤ r → σ.requestToPredictionId r = 0 := by
  induction h with
  | init => intro r hge; rfl
  | step σ σ' hσ hstep ih =>
    intro r hge
    cases hstep with
    | record m i p g t =>
      rw [record_requestToPredictionId]
      rw [record_nextRequestId] at hge
      exact ih r hge
    | requestAnalysis _ pid hok =>
      obtain ⟨-, hσ'⟩ := requestPerformanceAnalysis_ok_elim σ σ' pid hok
      subst hσ'
      have hge' : σ.nextRequestId + 1 ≤ r := hge
      show (if r = σ.nextRequestId then pid else σ.requestToPredictionId r) = 0
      rw [if_neg (by omega)]
      exact ih r (by omega)
    | processAnalysis _ r2 c pf hb1 hb2 hb3 hok =>
      obtain ⟨-, -, -, s, -, hσ'⟩ :=
        processPerformanceAnalysis_ok_elim verify σ σ' r2 c pf hok
      subst hσ'
      exact ih r hge
    | update m a d e => exact ih r hge
    | requestMetrics m =>
      rw [(requestMetrics_fields σ m).2.2.2.2.1]
      rw [(requestMetrics_fields σ m).2.2.2.2.2.2] at hge
      exact ih r (by omega)
    | decryptMetrics _ r2 c pf hb1 hb2 hb3 hok =>
      obtain ⟨-, -, hσ'⟩ := decryptModelMetrics_ok_elim verify σ σ' r2 c pf hok
      subst hσ'
      exact ih r hge

/-- A request-id slot below the gateway counter keeps its stored
prediction-id correlation across every step, and the counter never
decreases. -/
theorem step_requestToPredictionId_stable (verify : Nat → Cleartexts → Nat → Bool)
    (σ σ' : ContractState) (hstep : Step verify σ σ') (r : Nat)
    (hr : r < σ.nextRequestId) :
    σ'.requestToPredictionId r = σ.requestToPredictionId r ∧
    r < σ'.nextRequestId := by
  cases hstep with
  | record m i p g t =>
    rw [record_requestToPredictionId, record_nextRequestId]
    exact ⟨rfl, hr⟩
  | requestAnalysis _ pid hok =>
    obtain ⟨-, hσ'⟩ := requestPerformanceAnalysis_ok_elim σ σ' pid hok
    subst hσ'
    constructor
    · show (if r = σ.nextRequestId then pid else σ.requestToPredictionId r) =
        σ.requestToPredictionId r
      rw [if_neg (by omega)]
    · show r < σ.nextRequestId + 1
      omega
  | processAnalysis _ r2 c pf hb1 hb2 hb3 hok =>
    obtain ⟨-, -, -, s, -, hσ'⟩ :=
      processPerformanceAnalysis_ok_elim verify σ σ' r2 c pf hok
    subst hσ'
    exact ⟨rfl, hr⟩
  | update m a d e => exact ⟨rfl, hr⟩
  | requestMetrics m =>
    rw [(requestMetrics_fields σ m).2.2.2.2.1,
        (requestMetrics_fields σ m).2.2.2.2.2.2]
    exact ⟨rfl, by omega⟩
  | decryptMetrics _ r2 c pf hb1 hb2 hb3 hok =>
    obtain ⟨-, -, hσ'⟩ := decryptModelMetrics_ok_elim verify σ σ' r2 c pf hok
    subst hσ'
    exact ⟨rfl, hr⟩

/-- The alert of an existing, already revealed record is unchanged by
every step, and the record count never decreases. -/
theorem step_revealed_frozen (verify : Nat → Cleartexts → Nat → Bool)
    (σ σ' : ContractState) (hstep : Step verify σ σ') (id : Nat)
    (hle : id ≤ σ.predictionCount)
    (hrev : (σ.performanceAlerts id).isRevealed = true) :
    σ'.performanceAlerts id = σ.performanceAlerts id ∧
    σ.predictionCount ≤ σ'.predictionCount := by
  cases hstep with
  | record m i p g t =>
    rw [record_performanceAlerts, record_predictionCount]
    exact ⟨by rw [if_neg (by omega)], by omega⟩
  | requestAnalysis _ pid hok =>
    obtain ⟨-, hσ'⟩ := requestPerformanceAnalysis_ok_elim σ σ' pid hok
    subst hσ'
    exact ⟨rfl, Nat.le_refl _⟩
  | processAnalysis _ r c pf hb1 hb2 hb3 hok =>
    obtain ⟨-, hrev0, -, s, -, hσ'⟩ :=
      processPerformanceAnalysis_ok_elim verify σ σ' r c pf hok
    subst hσ'
    have hid : ¬(id = σ.requestToPredictionId r) := by
      intro he
      rw [he] at hrev
      rw [hrev] at hrev0
      exact absurd hrev0 (by decide)
    exact ⟨by simp [hid], Nat.le_refl _⟩
  | update m a d e => exact ⟨rfl, Nat.le_refl _⟩
  | requestMetrics m => exact ⟨rfl, Nat.le_refl _⟩
  | decryptMetrics _ r c pf hb1 hb2 hb3 hok =>
    obtain ⟨-, -, hσ'⟩ := decryptModelMetrics_ok_elim verify σ σ' r c pf hok
    subst hσ'
    exact ⟨rfl, Nat.le_refl _⟩

/-- C3 counterexample: request 1, issued for the not-yet-allocated
record id 2, is completed successfully once (`exGhost2Revealed`); two
later `recordEncryptedPrediction` calls allocate id 2, re-zeroing alert
slot 2 and resetting the replay guard; the same request 1 is then
completed successfully a second time — so `completeAnalysis` does not
succeed at most once per requestId. Also, a second call in the state
right after a success fails with `alreadyProcessed` ("Already
processed"), not `invalidRequest` ("Invalid request", the
UnknownRequest error); and the metrics callback for request 1, already
processed once (`exMetricsDone`), succeeds again instead of being
rejected. -/
theorem completeAnalysis_replay_counterexample :
    processPerformanceAnalysis acceptAll exGhost2Requested 1 (100, 90, 92) 0 =
      .ok exGhost2Revealed ∧
    (exGhost2Revealed.performanceAlerts 2).isRevealed = true ∧
    (exGhost2Overwritten.performanceAlerts 2).isRevealed = false ∧
    processPerformanceAnalysis acceptAll exGhost2Overwritten 1 (10, 9, 9) 0 =
      .ok exGhost2Replayed ∧
    processPerformanceAnalysis acceptAll exRevealed 1 (7, 8, 9) 0 =
      .error .alreadyProcessed ∧
    ContractError.alreadyProcessed ≠ ContractError.invalidRequest ∧
    decryptModelMetrics acceptAll exMetricsRequested 1 (1, 2, 3) 0 =
      .ok exMetricsDone ∧
    decryptModelMetrics acceptAll exMetricsDone 1 (1, 2, 3) 0 =
      .ok exMetricsDone :=
  ⟨rfl, rfl, rfl, rfl, rfl, by decide, rfl, rfl⟩

/-- C3 (amended): the correlation entry is never deleted and the only
replay guard is the target alert's revealed flag, which
`recordEncryptedPrediction` re-zeroes when it allocates the target id —
so a requestId completed for a not-yet-allocated record id can be
completed again later, and "succeeds at most once" fails in general.
Single use does hold whenever the first successful completion happens in
a reachable state where the target record already exists: in the
post-callback state, and in every state reachable from it, a second
call with the same requestId fails with `alreadyProcessed` ("Already
processed"), not `invalidRequest`/UnknownRequest. A replayed metrics
callback is never rejected: `decryptModelMetrics` consumes nothing, so
a second delivery with a verifying proof succeeds again (writing
nothing). -/
theorem request_replay_guard (verify : Nat → Cleartexts → Nat → Bool) :
    (∀ σ σ' requestId cleartexts proof,
       processPerformanceAnalysis verify σ requestId cleartexts proof = .ok σ' →
       ∀ cleartexts2 proof2,
         processPerformanceAnalysis verify σ' requestId cleartexts2 proof2 =
           .error .alreadyProcessed) ∧
    (∀ σ σ' requestId cleartexts proof,
       Reachable verify σ →
       processPerformanceAnalysis verify σ requestId cleartexts proof = .ok σ' →
       σ.requestToPredictionId requestId ≤ σ.predictionCount →
       ∀ τ, Relation.ReflTransGen (Step verify) σ' τ →
         ∀ cleartexts2 proof2,
           processPerformanceAnalysis verify τ requestId cleartexts2 proof2 =
             .error .alreadyProcessed) ∧
    (∀ σ σ' requestId cleartexts proof,
       decryptModelMetrics verify σ requestId cleartexts proof = .ok σ' →
       σ' = σ ∧
       ∀ cleartexts2 proof2, verify requestId cleartexts2 proof2 = true →
         decryptModelMetrics verify σ' requestId cleartexts2 proof2 = .ok σ') := by
  refine ⟨?_, ?_, ?_⟩
  · intro σ σ' r c pf h c2 p2
    obtain ⟨hpid, hrev, hver, score, hcalc, hσ'⟩ :=
      processPerformanceAnalysis_ok_elim verify σ σ' r c pf h
    subst hσ'
    simp [processPerformanceAnalysis, hpid]
  · intro σ σ' r c pf hre hok halloc τ htr c2 pf2
    obtain ⟨hpid, hrev0, hver, score, hcalc, hσ'⟩ :=
      processPerformanceAnalysis_ok_elim verify σ σ' r c pf hok
    have hrlt : r < σ.nextRequestId := by
      by_contra hge
      push_neg at hge
      exact hpid (reachable_corr_bound verify σ hre r hge)
    subst hσ'
    have hinv : τ.requestToPredictionId r = σ.requestToPredictionId r ∧
        r < τ.nextRequestId ∧
        σ.requestToPredictionId r ≤ τ.predictionCount ∧
        (τ.performanceAlerts (σ.requestToPredictionId r)).isRevealed = true := by
      induction htr with
      | refl => exact ⟨rfl, hrlt, halloc, by simp⟩
      | tail hab hbc ih =>
        obtain ⟨i1, i2, i3, i4⟩ := ih
        obtain ⟨s1, s2⟩ := step_requestToPredictionId_stable verify _ _ hbc r i2
        obtain ⟨f1, f2⟩ := step_revealed_frozen verify _ _ hbc
          (σ.requestToPredictionId r) i3 i4
        exact ⟨s1.trans i1, s2, i3.trans f2, by rw [f1]; exact i4⟩
      
    simp only [processPerformanceAnalysis, hinv.1]
    rw [if_neg hpid, if_pos hinv.2.2.2]
  · intro σ σ' r c pf h
    obtain ⟨hlen, hver, hσ'⟩ :=
      decryptModelMetrics_ok_elim verify σ σ' r c pf h
    subst hσ'
    refine ⟨rfl, ?_⟩
    intro c2 p2 hv2
    simp [decryptModelMetrics, hlen, hv2]

/-- Witness for C3 (amended): record 1 existed when request 1 was first
completed, so a second callback fails with `alreadyProcessed` both
immediately (`exRevealed`) and after a further record is submitted
(`exRevealedThenRecord`); the replayed metrics callback succeeds. -/
theorem request_replay_guard_witness :
    processPerformanceAnalysis acceptAll exRevealed 1 (5, 6, 7) 123 =
      .error .alreadyProcessed ∧
    processPerformanceAnalysis acceptAll exRevealedThenRecord 1 (3, 3, 3) 0 =
      .error .alreadyProcessed ∧
    exMetricsDone = exMetricsRequested ∧
    decryptModelMetrics acceptAll exMetricsDone 1 (4, 4, 4) 9 = .ok exMetricsDone := by
  have h := request_replay_guard acceptAll
  have hreach : Reachable acceptAll exRequested :=
    .step exRecorded exRequested
      (.step initialState exRecorded .init
        (.record initialState "m" (.lit 10) (.lit 11) (.lit 12) 99))
      (.requestAnalysis exRecorded exRequested 1 rfl)
  refine ⟨h.1 exRequested exRevealed 1 (100, 90, 92) 0 rfl (5, 6, 7) 123,
          h.2.1 exRequested exRevealed 1 (100, 90, 92) 0 hreach rfl (by decide)
            exRevealedThenRecord
            (Relation.ReflTransGen.tail Relation.ReflTransGen.refl
              (.record exRevealed "m2" (.lit 1) (.lit 1) (.lit 1) 7))
            (3, 3, 3) 0,
          ?_, ?_⟩
  · exact (h.2.2 exMetricsRequested exMetricsDone 1 (1, 2, 3) 0 rfl).1
  · exact (h.2.2 exMetricsRequested exMetricsDone 1 (1, 2, 3) 0 rfl).2 (4, 4, 4) 9 rfl
